import Mathlib

/-
Verification development for the per-guild music playback coordinator
(cogs/Music.py of the Lambda-Discord-Bot repository).

The definitions below are a shallow embedding of the relevant Python code:
  * yt-dlp info dictionaries and serialized song rows are modelled as
    association lists from string keys to optional values (a `none` value
    models Python None, an absent key models a missing key; `dget` models
    Python dict.get, which conflates the two);
  * the Song class, its constructor and its to_dict serializer are
    translated field by field;
  * each vote-gated command handler is translated as a pure state-step
    function over the per-guild state it reads and writes, with the live
    listener count, admin flag and similar environment facts passed as
    arguments;
  * persistence (SQLite) is modelled as an association list from guild id
    to the stored queue blob.
Machine randomness (random.shuffle) is passed in as an explicit permutation
argument, and wall-clock time as an explicit `now` argument.
-/

set_option autoImplicit false

namespace LambdaBot

/-- Values occurring in a yt-dlp info dictionary or in a serialized song
row: strings (URLs, titles, uploaders) and numbers (durations, ids). -/
inductive Val where
  | str (s : String)
  | num (n : Nat)
deriving DecidableEq, Repr

/-- A Python-style dictionary with string keys. A `none` value models
Python None; an absent key models a key that is not present at all. -/
abbrev Dict : Type := List (String × Option Val)

/-- Python `d.get(k)`: returns the value stored under `k`, or None when
the key is absent or its stored value is None. -/
def dget (d : Dict) (k : String) : Option Val :=
  (d.find? (fun p => p.1 == k)).bind (fun p => p.2)

/-- The Song data class (cogs/Music.py, `Song.__init__`). Field by field:
`url` is read from key webpage_url, `title` from key title with default
Unknown Title, `thumbnail` from key thumbnail, `duration` from key
duration, `uploader` from key uploader, `requester_id` from the requester
member, and `stream_url` from key url; the full `data` blob is
kept on the object. The requester Member object itself is reduced to its
numeric id. -/
structure Song where
  data : Dict
  url : Option Val
  title : Val
  thumbnail : Option Val
  duration : Option Val
  uploader : Option Val
  requesterId : Nat
  streamUrl : Option Val
deriving DecidableEq, Repr

/-- The constructor `Song(data, requester)` from cogs/Music.py. -/
def mkSong (data : Dict) (requesterId : Nat) : Song where
  data := data
  url := dget data "webpage_url"
  title := (dget data "title").getD (Val.str "Unknown Title")
  thumbnail := dget data "thumbnail"
  duration := dget data "duration"
  uploader := dget data "uploader"
  requesterId := requesterId
  streamUrl := dget data "url"

/-- The serializer `Song.to_dict` from cogs/Music.py: the stored row has
exactly the keys url, title, thumbnail, duration, uploader, requester_id
(the `data` blob and `stream_url` are not stored). -/
def Song.to_dict (s : Song) : Dict :=
  [("url", s.url),
   ("title", some s.title),
   ("thumbnail", s.thumbnail),
   ("duration", s.duration),
   ("uploader", s.uploader),
   ("requester_id", some (Val.num s.requesterId))]

/-- The vote threshold used at every voting site in cogs/Music.py:
`required_votes = (len(listeners) // 2) + 1`, where `listeners` is the
list of non-bot members of the voice channel at the time of the call. -/
def requiredVotes (listeners : Nat) : Nat :=
  listeners / 2 + 1

/-- Outcome of one invocation of the skip handler `Music._skip_logic`. -/
inductive SkipResp where
  | nothingToSkip
  | forceSkipped
  | alreadyVoted
  | votePassed (count required : Nat)
  | voteProgress (count required : Nat)
deriving DecidableEq, Repr

/-- One invocation of `Music._skip_logic` (cogs/Music.py). Arguments:
`hasSource` models `vc and vc.source`, `isAdmin` the administrator
permission, `isRequester` the `author == vc.source.requester` check,
`listeners` the live non-bot listener count at this call, and `votes` the
current `skip_votes` set for the guild (setdefault gives the empty set).
Returns the response and the updated vote set. Note that on a passed vote
the skip handler does not clear the vote set itself; the set is cleared
later when the next track starts in `play_next`. -/
def skip_logic (hasSource isAdmin isRequester : Bool) (authorId : Nat)
    (listeners : Nat) (votes : Finset Nat) : SkipResp × Finset Nat :=
  if ¬hasSource then (.nothingToSkip, votes)
  else if isAdmin ∨ isRequester then (.forceSkipped, votes)
  else
    let required := requiredVotes listeners
    if authorId ∈ votes then (.alreadyVoted, votes)
    else
      let voters := insert authorId votes
      if required ≤ voters.card then (.votePassed voters.card required, voters)
      else (.voteProgress voters.card required, voters)

/-- The `required` component reported by a skip response, when the
response carries one. -/
def SkipResp.requiredOf : SkipResp → Option Nat
  | .votePassed _ r => some r
  | .voteProgress _ r => some r
  | _ => none

/-- The per-guild loop state `loop_states[guild_id]`, one of the strings
off, song, queue; a missing dictionary entry reads as off. -/
inductive LoopMode where
  | off
  | song
  | queue
deriving DecidableEq, Repr

/-- The per-guild `loop_votes[guild_id]` sub-map: loop mode (the vote
sub-key) to set of voter ids. A missing guild entry reads as the empty
map, which `lookupVoters` treats the same as an entry with empty sets. -/
abbrev LoopVotes : Type := List (LoopMode × Finset Nat)

/-- Reads the voter set recorded under a loop-mode sub-key, as
`guild_votes.setdefault(mode, set())` does before any mutation. -/
def lookupVoters (votes : LoopVotes) (mode : LoopMode) : Finset Nat :=
  ((votes.find? (fun p => p.1 = mode)).map (fun p => p.2)).getD ∅

/-- Stores an updated voter set under a loop-mode sub-key. -/
def storeVoters (votes : LoopVotes) (mode : LoopMode) (vs : Finset Nat) :
    LoopVotes :=
  (mode, vs) :: votes.filter (fun p => ¬p.1 = mode)

/-- Outcome of one invocation of the non-admin voting path of the `loop`
command (and of `LoopControlsView._handle_vote`, which has the same
logic). -/
inductive LoopResp where
  | alreadyVoted
  | votePassed
  | voteProgress (count required : Nat)
deriving DecidableEq, Repr

/-- The non-admin voting path of the `loop` command (cogs/Music.py,
`Music.loop`, after the administrator bypass and the voice-channel
check): reads the voter set for the requested mode, rejects a duplicate
voter, otherwise adds the voter; on reaching the threshold it sets
`loop_states[guild_id] = mode` and executes
`self.loop_votes.pop(guild_id, None)`, which discards the whole per-guild
sub-map (every mode simultaneously, modelled by the empty map `[]`).
Returns (response, new loop state, new per-guild loop_votes map). -/
def loop_vote (mode : LoopMode) (authorId listeners : Nat)
    (loopState : LoopMode) (votes : LoopVotes) :
    LoopResp × LoopMode × LoopVotes :=
  let required := requiredVotes listeners
  let voters := lookupVoters votes mode
  if authorId ∈ voters then (.alreadyVoted, loopState, votes)
  else
    let voters2 := insert authorId voters
    if required ≤ voters2.card then (.votePassed, mode, ([] : LoopVotes))
    else (.voteProgress voters2.card required, loopState,
          storeVoters votes mode voters2)

/-- The per-guild `remove_votes[guild_id]` sub-map: requested 1-based song
number (the vote sub-key, an `Int` since the command accepts any integer)
to set of voter ids. -/
abbrev RemoveVotes : Type := List (Int × Finset Nat)

/-- Reads the voter set recorded under a song-number sub-key. -/
def lookupRemoveVoters (votes : RemoveVotes) (number : Int) : Finset Nat :=
  ((votes.find? (fun p => p.1 = number)).map (fun p => p.2)).getD ∅

/-- Stores an updated voter set under a song-number sub-key. -/
def storeRemoveVoters (votes : RemoveVotes) (number : Int)
    (vs : Finset Nat) : RemoveVotes :=
  (number, vs) :: votes.filter (fun p => ¬p.1 = number)

/-- Outcome of one invocation of the `remove` command. -/
inductive RemoveResp where
  | queueEmpty
  | invalidNumber
  | notInVoice
  | forceRemoved (s : Song)
  | alreadyVoted
  | votePassed (s : Song) (count required : Nat)
  | voteProgress (count required : Nat)
deriving DecidableEq, Repr

/-- The `remove` command (cogs/Music.py, `Music.remove`). In source
order: an empty (or absent) queue is rejected with its own message; then
a number outside `1 <= number <= len(queue)` is rejected as invalid; then
the voice-channel co-membership check; then the administrator or
original-requester bypass removes the song at once and executes
`self.remove_votes.pop(guild_id, None)` (all sub-keys discarded); the
voting path rejects duplicate voters, and on reaching the threshold pops
the song and likewise discards the whole per-guild remove_votes sub-map.
Returns (response, new queue, new per-guild remove_votes map). -/
def remove (queue : List Song) (number : Int) (isAdmin : Bool)
    (authorId : Nat) (inVoice : Bool) (listeners : Nat)
    (votes : RemoveVotes) : RemoveResp × List Song × RemoveVotes :=
  if queue.isEmpty then (.queueEmpty, queue, votes)
  else if h : 1 ≤ number ∧ number ≤ (queue.length : Int) then
    if ¬inVoice then (.notInVoice, queue, votes)
    else
      let idx : Nat := (number - 1).toNat
      have hidx : idx < queue.length := by omega
      let target := queue.get ⟨idx, hidx⟩
      if isAdmin ∨ authorId = target.requesterId then
        (.forceRemoved target, queue.eraseIdx idx, ([] : RemoveVotes))
      else
        let required := requiredVotes listeners
        let voters := lookupRemoveVoters votes number
        if authorId ∈ voters then (.alreadyVoted, queue, votes)
        else
          let voters2 := insert authorId voters
          if required ≤ voters2.card then
            (.votePassed target voters2.card required,
             queue.eraseIdx idx, ([] : RemoveVotes))
          else (.voteProgress voters2.card required, queue,
                storeRemoveVoters votes number voters2)
  else (.invalidNumber, queue, votes)

/-- Outcome of one invocation of the `shuffle` command. -/
inductive ShuffleResp where
  | tooShort
  | notInVoice
  | forceShuffled
  | alreadyVoted
  | votePassed (count required : Nat)
  | voteProgress (count required : Nat)
deriving DecidableEq, Repr

/-- The `shuffle` command (cogs/Music.py, `Music.shuffle`). The random
permutation drawn by `random.shuffle` is supplied as the explicit
argument `shuffler`. Returns (response, new queue, new shuffle_votes
set). -/
def shuffle (queue : List Song) (inVoice isAdmin : Bool)
    (authorId listeners : Nat) (votes : Finset Nat)
    (shuffler : List Song → List Song) :
    ShuffleResp × List Song × Finset Nat :=
  if queue.length < 2 then (.tooShort, queue, votes)
  else if ¬inVoice then (.notInVoice, queue, votes)
  else if isAdmin then (.forceShuffled, shuffler queue, votes)
  else
    let required := requiredVotes listeners
    if authorId ∈ votes then (.alreadyVoted, queue, votes)
    else
      let voters2 := insert authorId votes
      if required ≤ voters2.card then
        (.votePassed voters2.card required, shuffler queue, (∅ : Finset Nat))
      else (.voteProgress voters2.card required, queue, voters2)

/-- The `required` component reported by a shuffle response, when the
response carries one. -/
def ShuffleResp.requiredOf : ShuffleResp → Option Nat
  | .votePassed _ r => some r
  | .voteProgress _ r => some r
  | _ => none

/-- Outcome of one invocation of the stop handler `Music._stop_logic`. -/
inductive StopResp where
  | notConnected
  | forceStopped
  | alreadyVoted
  | votePassed (count required : Nat)
  | voteProgress (count required : Nat)
deriving DecidableEq, Repr

/-- The per-guild state read and written by `Music._stop_logic`:
`playing` models `vc.is_playing() or vc.is_paused()`. -/
structure StopState where
  queue : List Song
  loopState : LoopMode
  playing : Bool
  stopVotes : Finset Nat
  inactiveSince : Option Nat
deriving DecidableEq

/-- The stop handler `Music._stop_logic` (cogs/Music.py), shared by the
`stop` command and the stop button. Translated in source order: after the
connection check the handler immediately sets `self.queues[guild.id] =
[]`, pops the loop state (so it reads as off afterwards), persists, calls
`vc.stop()` and arms the inactivity mark — all of this before the
administrator check and before any vote is examined. Only the response
text depends on the admin flag and on the vote outcome. -/
def stop_logic (connected isAdmin : Bool) (authorId listeners now : Nat)
    (st : StopState) : StopResp × StopState :=
  if ¬connected then (.notConnected, st)
  else
    let st1 : StopState :=
      { st with queue := [], loopState := .off, playing := false,
                inactiveSince := some now }
    if isAdmin then (.forceStopped, st1)
    else
      let required := requiredVotes listeners
      if authorId ∈ st.stopVotes then (.alreadyVoted, st1)
      else
        let voters2 := insert authorId st.stopVotes
        if required ≤ voters2.card then
          (.votePassed voters2.card required,
           { st1 with stopVotes := (∅ : Finset Nat) })
        else (.voteProgress voters2.card required,
              { st1 with stopVotes := voters2 })

/-- Capacity of the per-guild song history deque,
`Music.SONG_HISTORY_MAXLEN`. -/
def SONG_HISTORY_MAXLEN : Nat := 20

/-- Appending to a `deque(maxlen=20)`: the new element goes to the right
end and, when the deque is full, elements fall off the left end so that
at most 20 remain. -/
def historyAppend (hist : List Song) (s : Song) : List Song :=
  (hist ++ [s]).drop (hist.length + 1 - SONG_HISTORY_MAXLEN)

/-- The queue and history mutation performed by `Music.on_song_end`
(cogs/Music.py) before it persists and advances playback: when a finished
song is supplied it is first appended to the bounded history deque, and
then the loop state decides whether it is also reinserted at the front of
the queue (song), appended at the back (queue), or left out of the queue
(off). When `on_song_end` is called with `None` (the playback-error
path), neither the history nor the queue is touched. Returns
(new queue, new history). -/
def on_song_end (loopState : LoopMode) (finished : Option Song)
    (queue hist : List Song) : List Song × List Song :=
  match finished with
  | none => (queue, hist)
  | some s =>
    let hist2 := historyAppend hist s
    match loopState with
    | .song => (s :: queue, hist2)
    | .queue => (queue ++ [s], hist2)
    | .off => (queue, hist2)

/-- Events observable from one `play_next` call chain. -/
inductive PlayEvent where
  | playbackError (s : Song)
  | nowPlaying (s : Song)
  | queueFinished
deriving DecidableEq, Repr

/-- The playback advance loop `Music.play_next` (cogs/Music.py), for a
connected voice client. Stream resolution (the `YTDLSource.from_data` /
`from_url` calls) is supplied as the oracle `resolve`; `none` models the
exception path. On an empty queue the handler reports the queue finished
and arms the inactivity mark. Otherwise it pops the front song and tries
to resolve it: on success that song starts playing (one nowPlaying
event); on failure the error embed is sent once for that song and the
handler calls `on_song_end(ctx, None)` — which by `on_song_end` with
`none` leaves queue and history untouched — and then recurses into
`play_next` for the next queued item. Returns (song now playing if any,
remaining queue, history, events in emission order). -/
def play_next (resolve : Song → Option Val) :
    List Song → List Song →
    Option Song × List Song × List Song × List PlayEvent
  | [], hist => (none, [], hist, [.queueFinished])
  | s :: rest, hist =>
    match resolve s with
    | some _ => (some s, rest, hist, [.nowPlaying s])
    | none =>
      let r := play_next resolve rest hist
      (r.1, r.2.1, r.2.2.1, .playbackError s :: r.2.2.2)

/-- The queues table of the SQLite database: guild id to the decoded
queue blob (the JSON array of serialized song rows). -/
abbrev QueueStore : Type := List (Nat × List Dict)

/-- The stored queue row for a guild, if present. -/
def lookupRow (store : QueueStore) (guildId : Nat) : Option (List Dict) :=
  (store.find? (fun p => p.1 = guildId)).map (fun p => p.2)

/-- The persistence write `Music.save_queue_to_db` (cogs/Music.py): the
in-memory queue for the guild (`self.queues.get(guild_id, [])`) is
serialized via `to_dict`; when the serialized list is empty the row for
the guild is DELETEd, otherwise the row is INSERT OR REPLACEd with the
serialized blob. -/
def save_queue_to_db (guildId : Nat) (queue : List Song)
    (store : QueueStore) : QueueStore :=
  let queueData := queue.map Song.to_dict
  if queueData.isEmpty then store.filter (fun p => ¬p.1 = guildId)
  else (guildId, queueData) :: store.filter (fun p => ¬p.1 = guildId)

/-- The inactivity timeout `Music.INACTIVITY_TIMEOUT_SECONDS`. -/
def INACTIVITY_TIMEOUT_SECONDS : Nat := 120

/-- The per-guild session facts read by the inactivity ticker. -/
structure SessionView where
  hasVoiceClient : Bool
  isPlaying : Bool
  isPaused : Bool
deriving DecidableEq, Repr

/-- One run of the periodic ticker `Music.auto_disconnect`
(cogs/Music.py, decorated `tasks.loop(seconds=30)`): for each entry of
`inactive_since` whose mark is at least the timeout old, if the guild
still has a voice client and that client is neither playing nor paused,
the handler force-disconnects the guild (`_handle_disconnect`, the same
routine the administrator disconnect bypass calls) without consulting or
recording any vote. Returns the guild ids disconnected by this tick. -/
def auto_disconnect (now : Nat) (inactiveSince : List (Nat × Nat))
    (sessions : Nat → SessionView) : List Nat :=
  (inactiveSince.filter (fun p =>
    INACTIVITY_TIMEOUT_SECONDS ≤ now - p.2 ∧
    (sessions p.1).hasVoiceClient = true ∧
    (sessions p.1).isPlaying = false ∧
    (sessions p.1).isPaused = false)).map (fun p => p.1)

/-
Concrete data used by the counterexamples and witnesses below. The song
data mirrors the yt-dlp result shape used in the repository test file
tests/test_music_cog.py: key webpage_url holds the stable page URL and
key url holds the short-lived direct stream URL.
-/

/-- A fresh yt-dlp search result dictionary. -/
def sampleData : Dict :=
  [("webpage_url", some (Val.str "https://www.youtube.com/watch?v=dQw4w9WgXcQ")),
   ("title", some (Val.str "Never Gonna Give You Up")),
   ("thumbnail", some (Val.str "http://example.com/thumb.jpg")),
   ("duration", some (Val.num 212)),
   ("uploader", some (Val.str "Rick Astley")),
   ("url", some (Val.str "http://example.com/stream.mp3"))]

/-- A second, distinct yt-dlp search result dictionary. -/
def sampleData2 : Dict :=
  [("webpage_url", some (Val.str "http://youtube.com/2")),
   ("title", some (Val.str "Song 2")),
   ("thumbnail", none),
   ("duration", some (Val.num 240)),
   ("uploader", some (Val.str "Artist 2")),
   ("url", some (Val.str "http://example.com/stream2.mp3"))]

/-- A song freshly created from a search, requested by user 7. -/
def sampleSong : Song := mkSong sampleData 7

/-- A second song freshly created from a search, requested by user 8. -/
def sampleSong2 : Song := mkSong sampleData2 8

/-- A stream resolution oracle that fails exactly on `sampleSong`. -/
def sampleResolve : Song → Option Val :=
  fun t => if t = sampleSong then none else some (Val.num 0)

/-
Helper lemmas, shared by several claims.
-/

/-- The song appended to a bounded history deque is present in the
result: the trim removes elements from the left only and the capacity is
positive. -/
theorem mem_historyAppend (hist : List Song) (s : Song) :
    s ∈ historyAppend hist s := by
  unfold historyAppend
  rw [List.drop_append_of_le_length (by unfold SONG_HISTORY_MAXLEN; omega)]
  simp

/-- The playback advance loop never touches the history. -/
theorem play_next_hist (resolve : Song → Option Val) :
    ∀ (q hist : List Song), (play_next resolve q hist).2.2.1 = hist := by
  intro q hist
  induction q with
  | nil => simp [play_next]
  | cons s rest ih =>
    unfold play_next
    cases resolve s <;> simp [ih]

/-- Every song left in the queue by the playback advance loop was already
in the starting queue. -/
theorem play_next_queue_subset (resolve : Song → Option Val) :
    ∀ (q hist : List Song) (x : Song),
      x ∈ (play_next resolve q hist).2.1 → x ∈ q := by
  intro q hist
  induction q with
  | nil => simp [play_next]
  | cons s rest ih =>
    intro x
    unfold play_next
    cases resolve s with
    | some v => intro hx; exact List.mem_cons_of_mem s hx
    | none => intro hx; exact List.mem_cons_of_mem s (ih x hx)

/-- The playback advance loop emits no playback-error event for a song
that is not in the queue it processes. -/
theorem play_next_no_error_of_not_mem (resolve : Song → Option Val) :
    ∀ (q hist : List Song) (s : Song), s ∉ q →
      PlayEvent.playbackError s ∉ (play_next resolve q hist).2.2.2 := by
  intro q hist
  induction q with
  | nil => simp [play_next]
  | cons t rest ih =>
    intro s hs
    have hst : s ≠ t := fun h => hs (h ▸ List.mem_cons_self t rest)
    have hsrest : s ∉ rest := fun h => hs (List.mem_cons_of_mem t h)
    unfold play_next
    cases resolve t with
    | some v => simp [hst]
    | none =>
      simp only [List.mem_cons]
      rintro (h | h)
      · exact hst (by injection h)
      · exact ih s hsrest h

/-- C5: for every vote cast on any action, the required vote threshold
equals floor(eligibleNonBotListenerCount / 2) + 1, recomputed fresh from
the live listener count passed to each call (both cited sites,
`Music._skip_logic` and `Music.shuffle`, are covered); in particular,
for 0 or 1 eligible listeners the required count is 1. -/
theorem claim_C5_vote_threshold :
    (requiredVotes 0 = 1 ∧ requiredVotes 1 = 1) ∧
    (∀ (hasSource isAdmin isRequester : Bool) (a n : Nat) (v : Finset Nat)
       (r : Nat),
       ((skip_logic hasSource isAdmin isRequester a n v).1).requiredOf = some r →
       r = n / 2 + 1) ∧
    (∀ (q : List Song) (inVoice isAdmin : Bool) (a n : Nat) (v : Finset Nat)
       (sh : List Song → List Song) (r : Nat),
       ((shuffle q inVoice isAdmin a n v sh).1).requiredOf = some r →
       r = n / 2 + 1) := by
  refine ⟨⟨rfl, rfl⟩, ?_, ?_⟩
  · intro hs ia ir a n v r h
    simp only [skip_logic, requiredVotes] at h
    split_ifs at h <;> simp_all [SkipResp.requiredOf]
  · intro q iv ia a n v sh r h
    simp only [shuffle, requiredVotes] at h
    split_ifs at h <;> simp_all [ShuffleResp.requiredOf]

/-- Witness for C5: a skip vote with 5 live listeners reports a threshold
of 3, and a shuffle vote with 3 live listeners reports a threshold of
2. -/
theorem claim_C5_vote_threshold_witness :
    (3 : Nat) = 5 / 2 + 1 ∧ (2 : Nat) = 3 / 2 + 1 :=
  ⟨claim_C5_vote_threshold.2.1 true false false 1 5 ∅ 3 (by decide),
   claim_C5_vote_threshold.2.2 [sampleSong, sampleSong2] true false 1 3 ∅ id 2
     (by decide)⟩

/-- C6: casting the same principal a second time on the skip vote path
(the cited `Music._skip_logic`) yields the already-voted response and
leaves the recorded vote set — hence its count — unchanged. The vote set
for skip survives even a passed vote (it is cleared only when the next
track starts in `play_next`), so the statement holds with no restriction
to unresolved votes, which covers the claim. -/
theorem claim_C6_duplicate_vote_idempotent (a n n2 : Nat) (v : Finset Nat) :
    (skip_logic true false false a n2 (skip_logic true false false a n v).2).1
      = SkipResp.alreadyVoted ∧
    (skip_logic true false false a n2 (skip_logic true false false a n v).2).2
      = (skip_logic true false false a n v).2 := by
  have hmem : a ∈ (skip_logic true false false a n v).2 := by
    by_cases h : a ∈ v <;> simp only [skip_logic] <;> simp [h] <;>
      split <;> simp
  set w := (skip_logic true false false a n v).2 with hw
  simp [skip_logic, hmem]

/-- C7: at track completion (`Music.on_song_end`) with a finished item
present, loop mode song reinserts the finished item at queue position 1,
loop mode queue appends it at the queue tail, and loop mode off leaves
the queue unchanged (the item does not reappear there) while the item is
appended to the bounded history. -/
theorem claim_C7_loop_modes (q hist : List Song) (s : Song) :
    (on_song_end .song (some s) q hist).1 = s :: q ∧
    (on_song_end .queue (some s) q hist).1 = q ++ [s] ∧
    (on_song_end .off (some s) q hist).1 = q ∧
    s ∈ (on_song_end .off (some s) q hist).2 := by
  refine ⟨rfl, rfl, rfl, ?_⟩
  exact mem_historyAppend hist s

/-- C1: evaluation of the stop handler at a concrete failing input. A
non-administrator (user 42) issues stop while a song is queued and
playing, loop mode is queue, 3 listeners are present and no stop votes
have been cast. The claim says the queue, loop mode and playback state
must be left unchanged because the vote (1 of 2) has not passed; the
handler nevertheless clears the queue, resets the loop mode and stops
playback before examining the vote, answering only with a vote-progress
message. -/
theorem claim_C1_stop_mutates_without_vote :
    stop_logic true false 42 3 100
      { queue := [sampleSong], loopState := .queue, playing := true,
        stopVotes := ∅, inactiveSince := none } =
    (.voteProgress 1 2,
     { queue := [], loopState := .off, playing := false,
       stopVotes := {42}, inactiveSince := some 100 }) := by
  decide

/-- C2: evaluation of the persistence round trip at a concrete failing
input. A song fresh from a search has stable id (the webpage URL) and a
stream URL; serializing it with `Song.to_dict` and reconstructing it with
the `Song` constructor (as `load_queues_from_db` does, with the requester
member still present) yields a song whose stable id is gone and whose
stream locator slot now holds the old webpage URL, because `to_dict`
stores the stable id under key url while the constructor reads the
stable id from key webpage_url and the stream locator from key url.
Title, duration, uploader and requester id do round-trip. -/
theorem claim_C2_roundtrip_breaks_stable_id :
    (mkSong sampleData 7).url
        = some (Val.str "https://www.youtube.com/watch?v=dQw4w9WgXcQ") ∧
    (mkSong (mkSong sampleData 7).to_dict 7).url = none ∧
    (mkSong (mkSong sampleData 7).to_dict 7).streamUrl
        = some (Val.str "https://www.youtube.com/watch?v=dQw4w9WgXcQ") ∧
    (mkSong (mkSong sampleData 7).to_dict 7).title = (mkSong sampleData 7).title ∧
    (mkSong (mkSong sampleData 7).to_dict 7).duration = (mkSong sampleData 7).duration ∧
    (mkSong (mkSong sampleData 7).to_dict 7).uploader = (mkSong sampleData 7).uploader ∧
    (mkSong (mkSong sampleData 7).to_dict 7).requesterId = (mkSong sampleData 7).requesterId := by
  decide

/-- The per-guild loop vote map used by the C3 counterexample: votes are
pending for two different sub-keys, mode queue (voters 5 and 6) and mode
song (voter 1). -/
def loopVotesBefore : LoopVotes :=
  [(LoopMode.queue, {5, 6}), (LoopMode.song, {1})]

/-- Counterexample to C3: with 3 listeners (threshold 2), user 2 casts
the second vote for loop mode song and the vote passes; the handler then
discards the whole per-guild loop vote map, so the vote set for the
untouched sub-key queue — which held voters 5 and 6 — is emptied rather
than left unchanged as the claim requires. -/
theorem claim_C3_counterexample :
    lookupVoters loopVotesBefore .queue = {5, 6} ∧
    (loop_vote .song 2 3 .off loopVotesBefore).1 = .votePassed ∧
    lookupVoters (loop_vote .song 2 3 .off loopVotesBefore).2.2 .queue = ∅ := by
  decide

/-- C3 (amended): when a vote for a (tenant, actionKind, subKey) triple
passes, the handler discards the entire per-tenant vote map for that
action kind, so the vote sets for all sub-keys of that tenant and action
kind — not only the passed triple — are reset to empty. Stated for both
cited handlers, the loop command and the remove command. -/
theorem claim_C3_pass_clears_all_subkeys :
    (∀ (mode : LoopMode) (a n : Nat) (ls : LoopMode) (lv : LoopVotes),
       (loop_vote mode a n ls lv).1 = LoopResp.votePassed →
       ∀ m, lookupVoters (loop_vote mode a n ls lv).2.2 m = ∅) ∧
    (∀ (q : List Song) (num : Int) (isAdm : Bool) (aid : Nat) (inv : Bool)
       (n : Nat) (rv : RemoveVotes) (s : Song) (c r : Nat),
       (remove q num isAdm aid inv n rv).1 = RemoveResp.votePassed s c r →
       ∀ m, lookupRemoveVoters (remove q num isAdm aid inv n rv).2.2 m = ∅) := by
  constructor
  · intro mode a n ls lv hpass m
    simp only [loop_vote] at hpass ⊢
    split_ifs at hpass ⊢ <;> simp_all [lookupVoters]
  · intro q num isAdm aid inv n rv s c r hpass m
    simp only [remove] at hpass ⊢
    split_ifs at hpass ⊢ <;> simp_all [lookupRemoveVoters]

/-- Witness for the amended C3: the passing loop vote of the
counexample input leaves every sub-key empty (shown for sub-key queue),
and a passing remove vote (user 2 supplies the second of 2 required
votes for song number 1) leaves every remove sub-key empty (shown for
sub-key 0). -/
theorem claim_C3_pass_clears_all_subkeys_witness :
    lookupVoters (loop_vote .song 2 3 .off loopVotesBefore).2.2 .queue = ∅ ∧
    lookupRemoveVoters
      (remove [sampleSong] 1 false 2 true 3 [(1, {5})]).2.2 0 = ∅ :=
  ⟨claim_C3_pass_clears_all_subkeys.1 .song 2 3 .off loopVotesBefore
      (by decide) .queue,
   claim_C3_pass_clears_all_subkeys.2 [sampleSong] 1 false 2 true 3
      [(1, {5})] sampleSong 2 2 (by decide) 0⟩

/-- Counterexample to C4: guild 1 has an InactivityMark 200 time units
old (well past the 120 unit timeout) and its session is not Playing — it
is Paused — yet one run of the ticker issues no disconnect, because the
code additionally requires the voice client not to be paused. -/
theorem claim_C4_counterexample :
    INACTIVITY_TIMEOUT_SECONDS ≤ 200 - 0 ∧
    auto_disconnect 200 [(1, 0)]
      (fun _ => { hasVoiceClient := true, isPlaying := false,
                  isPaused := true }) = [] := by
  decide

/-- C4 (amended): for every tenant whose InactivityMark is at least the
fixed inactivity timeout (120 time units) old and whose session still
has a voice client that is neither Playing nor Paused, the periodic
inactivity ticker issues a disconnect for that tenant via the same
force-disconnect routine the administrator bypass uses, with no vote. -/
theorem claim_C4_ticker_disconnects (now : Nat) (marks : List (Nat × Nat))
    (sessions : Nat → SessionView) (g t0 : Nat)
    (hmem : (g, t0) ∈ marks)
    (helapsed : INACTIVITY_TIMEOUT_SECONDS ≤ now - t0)
    (hvc : (sessions g).hasVoiceClient = true)
    (hplay : (sessions g).isPlaying = false)
    (hpause : (sessions g).isPaused = false) :
    g ∈ auto_disconnect now marks sessions := by
  unfold auto_disconnect
  simp only [List.mem_map, List.mem_filter]
  refine ⟨(g, t0), ⟨hmem, ?_⟩, rfl⟩
  simp [helapsed, hvc, hplay, hpause]

/-- Witness for the amended C4: an idle, unpaused session with a mark
200 time units old is disconnected by the tick. -/
theorem claim_C4_ticker_disconnects_witness :
    1 ∈ auto_disconnect 200 [(1, 0)]
      (fun _ => { hasVoiceClient := true, isPlaying := false,
                  isPaused := false }) :=
  claim_C4_ticker_disconnects 200 [(1, 0)] _ 1 0 (by simp) (by decide)
    rfl rfl rfl

/-- Counterexample to C8: a remove request against an empty queue (here
with index 1) is answered with the dedicated queue-empty error, not with
the invalid-number (IndexOutOfRange) error the claim requires for every
out-of-range index including indices into an empty queue. -/
theorem claim_C8_counterexample :
    (remove [] 1 false 0 true 3 []).1 = RemoveResp.queueEmpty ∧
    RemoveResp.queueEmpty ≠ RemoveResp.invalidNumber := by
  decide

/-- C8 (amended): for a non-empty queue of length L, a requested 1-based
index i with i < 1 or i > L fails with the invalid-number error (the
IndexOutOfRange of the spec taxonomy) and leaves queue and vote state
unchanged; for an empty queue every index fails with the distinct
queue-empty error, likewise with no mutation. -/
theorem claim_C8_remove_out_of_range :
    (∀ (q : List Song) (num : Int) (isAdm : Bool) (aid : Nat) (inv : Bool)
       (n : Nat) (rv : RemoveVotes), q ≠ [] →
       num < 1 ∨ (q.length : Int) < num →
       remove q num isAdm aid inv n rv = (RemoveResp.invalidNumber, q, rv)) ∧
    (∀ (num : Int) (isAdm : Bool) (aid : Nat) (inv : Bool) (n : Nat)
       (rv : RemoveVotes),
       remove [] num isAdm aid inv n rv = (RemoveResp.queueEmpty, [], rv)) := by
  constructor
  · intro q num isAdm aid inv n rv hq hnum
    simp only [remove]
    split_ifs with h1 h2
    all_goals first
      | rfl
      | exact absurd (List.isEmpty_iff.mp h1) hq
      | (exfalso; omega)
  · intro num isAdm aid inv n rv
    simp [remove]

/-- Witness for the amended C8: index 5 on a one-song queue is rejected
as invalid with no mutation, and index 5 on an empty queue is rejected
as queue-empty with no mutation. -/
theorem claim_C8_remove_out_of_range_witness :
    remove [sampleSong] 5 false 0 true 3 []
      = (RemoveResp.invalidNumber, [sampleSong], []) ∧
    remove [] 5 false 0 true 3 [] = (RemoveResp.queueEmpty, [], []) :=
  ⟨claim_C8_remove_out_of_range.1 [sampleSong] 5 false 0 true 3 []
     (by decide) (by decide),
   claim_C8_remove_out_of_range.2 5 false 0 true 3 []⟩

/-- C9: when stream resolution of the next queued item fails during the
playback advance (`Music.play_next`), that item is discarded: it ends up
in neither the final queue nor the history (which `play_next` never
touches), exactly one playback-error notification is emitted for it, and
the advance continues with the next queued item — the whole call behaves
like the call on the remaining queue with the one error notification
prepended. The freshness hypotheses say the failed item is not already
elsewhere in the queue or the history. -/
theorem claim_C9_resolution_failure_skips (resolve : Song → Option Val)
    (s : Song) (rest hist : List Song)
    (hfail : resolve s = none) (hrest : s ∉ rest) (hhist : s ∉ hist) :
    play_next resolve (s :: rest) hist =
      ((play_next resolve rest hist).1,
       (play_next resolve rest hist).2.1,
       (play_next resolve rest hist).2.2.1,
       PlayEvent.playbackError s :: (play_next resolve rest hist).2.2.2) ∧
    s ∉ (play_next resolve (s :: rest) hist).2.1 ∧
    s ∉ (play_next resolve (s :: rest) hist).2.2.1 ∧
    ((play_next resolve (s :: rest) hist).2.2.2).count
      (PlayEvent.playbackError s) = 1 := by
  have heq : play_next resolve (s :: rest) hist =
      ((play_next resolve rest hist).1,
       (play_next resolve rest hist).2.1,
       (play_next resolve rest hist).2.2.1,
       PlayEvent.playbackError s :: (play_next resolve rest hist).2.2.2) := by
    simp only [play_next, hfail]
  refine ⟨heq, ?_, ?_, ?_⟩
  · rw [heq]
    intro hx
    exact hrest (play_next_queue_subset resolve rest hist s hx)
  · rw [heq]
    simpa only [play_next_hist] using hhist
  · rw [heq]
    have h0 : ((play_next resolve rest hist).2.2.2).count
        (PlayEvent.playbackError s) = 0 :=
      List.count_eq_zero.mpr (play_next_no_error_of_not_mem resolve rest hist s hrest)
    simp [List.count_cons, h0]

/-- Witness for C9: with a resolver that fails exactly on `sampleSong`,
advancing a queue holding `sampleSong` then `sampleSong2` reports the
failure exactly once. -/
theorem claim_C9_resolution_failure_skips_witness :
    ((play_next sampleResolve [sampleSong, sampleSong2] []).2.2.2).count
      (PlayEvent.playbackError sampleSong) = 1 :=
  (claim_C9_resolution_failure_skips sampleResolve sampleSong [sampleSong2] []
     (by decide) (by decide) (by decide)).2.2.2

/-- C10: after any `save_queue_to_db` write, the durable store has a row
for the written tenant if and only if the in-memory queue passed to the
write is non-empty (an empty queue deletes the row instead of storing an
empty array), and — provided every previously stored row was non-empty —
every row of the resulting store still decodes to at least one item. -/
theorem claim_C10_store_row_iff_nonempty (gid : Nat) (q : List Song)
    (store : QueueStore)
    (hstore : ∀ p ∈ store, p.2 ≠ ([] : List Dict)) :
    (lookupRow (save_queue_to_db gid q store) gid ≠ none ↔ q ≠ []) ∧
    (∀ p ∈ save_queue_to_db gid q store, p.2 ≠ ([] : List Dict)) := by
  constructor
  · cases q with
    | nil =>
      have hnone : lookupRow (save_queue_to_db gid [] store) gid = none := by
        simp only [save_queue_to_db, List.map_nil, List.isEmpty_nil, if_true]
        have hfind : (store.filter (fun p => ¬p.1 = gid)).find?
            (fun p => p.1 = gid) = none := by
          rw [List.find?_eq_none]
          intro x hx
          have := (List.mem_filter.mp hx).2
          simpa using this
        simp [lookupRow, hfind]
      simp [hnone]
    | cons s rest =>
      have hsome : lookupRow (save_queue_to_db gid (s :: rest) store) gid
          = some ((s :: rest).map Song.to_dict) := by
        simp [save_queue_to_db, lookupRow, List.find?]
      simp [hsome]
  · intro p hp
    simp only [save_queue_to_db] at hp
    by_cases hq : (q.map Song.to_dict).isEmpty
    · rw [if_pos hq] at hp
      exact hstore p (List.mem_of_mem_filter hp)
    · rw [if_neg hq] at hp
      rcases List.mem_cons.mp hp with h | h
      · subst h
        simpa [List.isEmpty_iff] using hq
      · exact hstore p (List.mem_of_mem_filter h)

/-- Witness for C10: writing a one-song queue for guild 1 into an empty
store leaves a row for guild 1. -/
theorem claim_C10_store_row_iff_nonempty_witness :
    lookupRow (save_queue_to_db 1 [sampleSong] []) 1 ≠ none :=
  ((claim_C10_store_row_iff_nonempty 1 [sampleSong] [] (by simp)).1).mpr
    (by simp)

end LambdaBot
